import Mathlib

/-!
Verification development for the MyDNS adapter (Windows dynamic-DNS notifier).

This file gives a shallow embedding of the program's core:

* the profile store persisted in the Windows registry (`src/registry.rs`):
  profiles live under the root key `Software\MyDNSAdapter`, one child key per
  `master_id`, holding a `REG_SZ` value `Password` and two `REG_DWORD` values
  `IPv4Notify` / `IPv6Notify`;
* the notification dispatcher (`src/notify.rs`): per enabled protocol, one
  authenticated HTTP GET whose outcome is classified as success (2xx), a
  logged failure (transport error or 4xx/5xx status), or — for any other
  non-2xx status — a panic: `error_for_status` returns `Err` only for
  4xx/5xx, so the `unwrap_err()` at notify.rs:113 is then called on an `Ok`.
  The panic path is modelled explicitly and unwinds through every caller
  (skipping the other protocol, the remaining profiles of a pass, and the
  service loop's `Stopped` report);
* the service control loop (`src/winservice.rs`): an initial dispatch pass,
  then a wait loop racing a stop-signal channel against a five-minute timeout;
* the bounded log file (`src/logging.rs`).

External effects are embedded as explicit data: the registry is a value of an
inductive `Registry` type (including damaged-entry cases the enumeration code
must tolerate), the HTTP transport is a function from request to outcome, the
stop-signal channel is a list of received events, and the log file is a list of
lines.  Machine-level details that no code path observes (UTF-16 re-encoding of
well-formed strings, the 256-u16 enumeration name buffer, which always suffices
because registry key names are at most 255 UTF-16 units) are noted where they
are abstracted.
-/

namespace MyDNS

/-! ## Registry data model (`src/registry.rs`) -/

/-- Application configuration for one account, `registry.rs::Config`:
one registry subkey per `master_id`, with the password and the two
per-protocol notify flags. -/
structure Config where
  master_id : String
  password : String
  ipv4_notify : Bool
  ipv6_notify : Bool
deriving Repr, DecidableEq

/-- One registry value datum: its value type tag and payload.
`sz s` is a `REG_SZ` whose UTF-16 payload decodes to `s` (the terminating NUL
written by `set_reg_string` is not part of `s`; a NUL embedded in `s` models a
payload with an interior NUL unit).  `dword n` is a `REG_DWORD`.  `other`
stands for any value of another registry type. -/
inductive RegData where
  | sz (s : String)
  | dword (n : Nat)
  | other
deriving Repr, DecidableEq

/-- One slot of the enumeration of the root key `Software\MyDNSAdapter`:

* `child name values` — a subkey that enumerates and opens normally, holding
  the association list `values` of named registry values;
* `unopenable name` — a subkey whose name enumerates but for which
  `RegOpenKeyExW` fails (e.g. an ACL-restricted key);
* `enumGlitch` — an index at which `RegEnumKeyExW` itself fails with an error
  other than `ERROR_NO_MORE_ITEMS`. -/
inductive ChildSlot where
  | child (name : String) (values : List (String × RegData))
  | unopenable (name : String)
  | enumGlitch
deriving Repr, DecidableEq

/-- The persistent store as this program sees it:

* `absent` — the root key `Software\MyDNSAdapter` does not exist
  (`RegOpenKeyExW` yields `ERROR_FILE_NOT_FOUND`);
* `openError` — opening the root key fails with any other error;
* `present slots` — the root key exists and enumerating it yields `slots`
  in order. -/
inductive Registry where
  | absent
  | openError
  | present (slots : List ChildSlot)
deriving Repr, DecidableEq

/-- Store-level errors surfaced by the embedded registry operations:
`notFound` is `ERROR_FILE_NOT_FOUND` (the spec's `NotFound`), `accessError`
any other medium failure (the spec's `PersistenceError`). -/
inductive RegError where
  | notFound
  | accessError
deriving Repr, DecidableEq

/-- Name of a slot as the enumeration reports it (`enumGlitch` yields none). -/
def slotName : ChildSlot → Option String
  | ChildSlot.child n _ => some n
  | ChildSlot.unopenable n => some n
  | ChildSlot.enumGlitch => none

/-- Whether a slot is a key named `id` (readable or not). -/
def slotNamed (s : ChildSlot) (id : String) : Bool :=
  match slotName s with
  | some n => decide (n = id)
  | none => false

/-- Association-list lookup of a registry value by name: the registry holds at
most one value per name, so this models `RegQueryValueExW`'s lookup. -/
def lookupValue : List (String × RegData) → String → Option RegData
  | [], _ => none
  | (m, d) :: rest, n => if m = n then some d else lookupValue rest n

/-- Association-list update, modelling `RegSetValueExW`: overwrite the value
if the name is present, otherwise add it. -/
def setValue : List (String × RegData) → String → RegData → List (String × RegData)
  | [], n, d => [(n, d)]
  | (m, e) :: rest, n, d =>
    if m = n then (m, d) :: rest else (m, e) :: setValue rest n d

/-- The NUL character, terminator of `REG_SZ` payloads. -/
def NUL : Char := Char.ofNat 0

/-- Decoding of a `REG_SZ` payload as `get_reg_string` does it: the buffer is
cut at the first NUL unit (`buffer.iter().position(|&c| c == 0)`), so the
result is the longest NUL-free initial segment. -/
def decode_sz (s : String) : String :=
  String.mk (s.data.takeWhile (fun c => decide (c ≠ NUL)))

/-- Embedding of `registry.rs::get_reg_string`: read a named `REG_SZ` value.
A missing value (the sizing query fails), a zero-size payload, or a value of a
different registry type all yield the empty string; an existing `REG_SZ`
payload is decoded up to its first NUL. -/
def get_reg_string (values : List (String × RegData)) (name : String) : String :=
  match lookupValue values name with
  | some (RegData.sz s) => decode_sz s
  | some (RegData.dword _) => ""
  | some RegData.other => ""
  | none => ""

/-- Embedding of `registry.rs::get_reg_dword`: read a named `REG_DWORD` value.
A missing value or a value of a different type (or size) yields 0. -/
def get_reg_dword (values : List (String × RegData)) (name : String) : Nat :=
  match lookupValue values name with
  | some (RegData.dword n) => n
  | _ => 0

/-- Reading one opened subkey into a `Config`
(`registry.rs::load_all_configs`, the body of the per-subkey branch):
the subkey name is the `master_id`; `Password` is read with
`get_reg_string(..).unwrap_or_default()`, the flags with
`get_reg_dword(..).unwrap_or(0)` compared against 1.  In this embedding the
two readers are total, so the `unwrap_or` wrappers are the identity. -/
def read_config (name : String) (values : List (String × RegData)) : Config :=
  { master_id := name
    password := get_reg_string values "Password"
    ipv4_notify := decide (get_reg_dword values "IPv4Notify" = 1)
    ipv6_notify := decide (get_reg_dword values "IPv6Notify" = 1) }

/-- Contribution of one enumeration slot to the loaded configuration list:
a readable subkey yields its `Config`; an enumeration failure or an
unopenable subkey is skipped (`index += 1; continue` and the failed
`RegOpenKeyExW` branch). -/
def slotConfig : ChildSlot → Option Config
  | ChildSlot.child name values => some (read_config name values)
  | ChildSlot.unopenable _ => none
  | ChildSlot.enumGlitch => none

/-- Embedding of `registry.rs::load_all_configs`: a missing root key is an
empty configuration list, any other root-open failure is an error, and an
existing root key yields one `Config` per readable subkey, in enumeration
order, skipping damaged slots. -/
def load_all_configs (reg : Registry) : Except RegError (List Config) :=
  match reg with
  | Registry.absent => Except.ok []
  | Registry.openError => Except.error RegError.accessError
  | Registry.present slots => Except.ok (slots.filterMap slotConfig)

/-- Rust's `Result::unwrap_or`, used by every caller of `load_all_configs`
(`unwrap_or_default()` / `unwrap_or_else(|_| Vec::new())`). -/
def unwrapOr {ε α : Type} (x : Except ε α) (d : α) : α :=
  match x with
  | Except.ok a => a
  | Except.error _ => d

/-- The spec's `get(id)`, as the interactive layer performs it
(`main.rs::edit_mode`): load all configurations, collapsing a load failure to
the empty list, and select the one whose `master_id` equals `id`; `none` is
the spec's `NotFound`. -/
def get_config (reg : Registry) (id : String) : Option Config :=
  (unwrapOr (load_all_configs reg) []).find? (fun c => decide (c.master_id = id))

/-- The three value writes of `registry.rs::save_to_registry`, in program
order: `Password` as `REG_SZ` (with its terminating NUL added by
`set_reg_string` and stripped again on decode), then `IPv4Notify` and
`IPv6Notify` as `REG_DWORD` 1/0. -/
def save_values (old : List (String × RegData)) (pw : String) (v4 v6 : Bool) :
    List (String × RegData) :=
  setValue
    (setValue (setValue old "Password" (RegData.sz pw))
      "IPv4Notify" (RegData.dword (if v4 then 1 else 0)))
    "IPv6Notify" (RegData.dword (if v6 then 1 else 0))

/-- Embedding of `registry.rs::save_to_registry` (the store's `upsert`):
`RegCreateKeyExW` opens or creates `Software\MyDNSAdapter\{id}` — creating the
whole path when the root is missing, failing on a medium error or on a child
key that exists but cannot be opened for writing — and the three values are
then written.  A newly created child appears at the end of the enumeration
(the registry's enumeration order is not contractual; this model fixes
insertion order). -/
def save_to_registry (reg : Registry) (id pw : String) (v4 v6 : Bool) :
    Except RegError Registry :=
  match reg with
  | Registry.absent =>
      Except.ok (Registry.present [ChildSlot.child id (save_values [] pw v4 v6)])
  | Registry.openError => Except.error RegError.accessError
  | Registry.present slots =>
      if slots.any (fun s => match s with
          | ChildSlot.unopenable n => decide (n = id)
          | _ => false) then
        Except.error RegError.accessError
      else if slots.any (fun s => match s with
          | ChildSlot.child n _ => decide (n = id)
          | _ => false) then
        Except.ok (Registry.present (slots.map (fun s => match s with
          | ChildSlot.child n vs =>
              if n = id then ChildSlot.child n (save_values vs pw v4 v6)
              else ChildSlot.child n vs
          | s => s)))
      else
        Except.ok (Registry.present
          (slots ++ [ChildSlot.child id (save_values [] pw v4 v6)]))

/-- Embedding of `registry.rs::delete_config`: open the root for writing
(`ERROR_FILE_NOT_FOUND` when the store is uninitialized, surfaced by
`.ok()?`), then `RegDeleteKeyW` on the child named `id` —
`ERROR_FILE_NOT_FOUND` when no such child exists, an access error when the
child exists but is access-restricted, and removal of the child otherwise. -/
def delete_config (reg : Registry) (id : String) : Except RegError Registry :=
  match reg with
  | Registry.absent => Except.error RegError.notFound
  | Registry.openError => Except.error RegError.accessError
  | Registry.present slots =>
      if slots.any (fun s => match s with
          | ChildSlot.child n _ => decide (n = id)
          | _ => false) then
        Except.ok (Registry.present (slots.filter (fun s => ! slotNamed s id)))
      else if slots.any (fun s => match s with
          | ChildSlot.unopenable n => decide (n = id)
          | _ => false) then
        Except.error RegError.accessError
      else
        Except.error RegError.notFound

/-- Well-formed registry: distinct child-key names, as the real registry
guarantees (a key has at most one subkey of a given name). -/
def Registry.wf : Registry → Prop
  | Registry.present slots => (slots.filterMap slotName).Nodup
  | _ => True

/-- Legal registry key name for a profile id: nonempty, without NUL or
backslash (a backslash would address a deeper key in
`Software\MyDNSAdapter\{id}`), and at most 255 characters (registry key names
are limited to 255 UTF-16 units, so the enumeration's 256-unit buffer always
suffices). -/
def validKeyName (id : String) : Prop :=
  id ≠ "" ∧ (∀ c ∈ id.data, c ≠ NUL ∧ c ≠ '\\') ∧ id.length ≤ 255

/-- Valid secret: no embedded NUL (a NUL would be taken for the `REG_SZ`
terminator on read-back). -/
def validSecret (pw : String) : Prop :=
  ∀ c ∈ pw.data, c ≠ NUL

/-! ## Notification dispatcher (`src/notify.rs`) -/

/-- Outcome of one HTTP send (`client.get(url).basic_auth(id, pw).send()`):
either a transport-level failure (DNS, TLS, timeout, connection refused) with
the error's display string, or a response carrying an HTTP status code. -/
inductive HttpOutcome where
  | transportError (reason : String)
  | response (status : Nat)
deriving Repr, DecidableEq

/-- The HTTP transport as an environment: what one GET of `url` with Basic
credentials `(id, pw)` produces. -/
def HttpEnv : Type := String → String → String → HttpOutcome

/-- One entry appended to the log (`logging.rs::log_info` / `log_error`). -/
inductive LogEntry where
  | info (msg : String)
  | error (msg : String)
deriving Repr, DecidableEq

/-- Fixed notification endpoints baked into `notify.rs::perform_notification`. -/
def ipv4Url : String := "https://ipv4.mydns.jp/login.html"

/-- IPv6 counterpart of `ipv4Url`. -/
def ipv6Url : String := "https://ipv6.mydns.jp/login.html"

/-- English message table entries used by the dispatcher
(`i18n.rs::get_msg_lang`, `is_jp = false`). -/
def msgIPv4FailFmt : String := "IPv4 Notification failed: {}"

/-- See `msgIPv4FailFmt`. -/
def msgIPv6FailFmt : String := "IPv6 Notification failed: {}"

/-- See `msgIPv4FailFmt`. -/
def msgNotifyStatusFmt : String := "Notified {}: Status {}"

/-- Success range of `reqwest::StatusCode::is_success`: 2xx. -/
def statusIsSuccess (s : Nat) : Bool :=
  decide (200 ≤ s) && decide (s < 300)

/-- Range of `StatusCode::is_client_error`: 4xx.  `Response::error_for_status`
returns `Err` exactly for a client or server error status. -/
def statusIsClientError (s : Nat) : Bool :=
  decide (400 ≤ s) && decide (s < 500)

/-- Range of `StatusCode::is_server_error`: 5xx. -/
def statusIsServerError (s : Nat) : Bool :=
  decide (500 ≤ s) && decide (s < 600)

/-- Display string of the error produced by `Response::error_for_status` on a
non-2xx response.  `reqwest` renders the status with its canonical reason
phrase and the URL; this model keeps the code and the URL, which is all any
caller observes (the string is only ever logged). -/
def status_error_reason (url : String) (status : Nat) : String :=
  "HTTP status error " ++ toString status ++ " for url " ++ url

/-- Left-to-right scan of Rust's `str::replacen(pat, repl, 1)` over the
character list: replace the leftmost occurrence of `pat`, keep everything
else unchanged (and the string itself when `pat` does not occur). -/
def replaceFirstAux (pat repl : List Char) : List Char → List Char
  | [] => []
  | c :: cs =>
      if pat = (c :: cs).take pat.length then
        repl ++ (c :: cs).drop pat.length
      else
        c :: replaceFirstAux pat repl cs

/-- Rust's `str::replacen(pat, repl, 1)` for the nonempty patterns used here:
replace only the first (leftmost) occurrence of `pat` in `s`. -/
def replacen1 (s pat repl : String) : String :=
  String.mk (replaceFirstAux pat.data repl.data s.data)

instance {ε α : Type} [DecidableEq ε] [DecidableEq α] : DecidableEq (Except ε α) := fun a b =>
  match a, b with
  | Except.ok x, Except.ok y =>
      if h : x = y then isTrue (by rw [h])
      else isFalse (fun hc => by cases hc; exact h rfl)
  | Except.error e, Except.error f =>
      if h : e = f then isTrue (by rw [h])
      else isFalse (fun hc => by cases hc; exact h rfl)
  | Except.ok _, Except.error _ => isFalse (fun hc => by cases hc)
  | Except.error _, Except.ok _ => isFalse (fun hc => by cases hc)

/-- How one call of `notify.rs::notify` ends: it returns its
`reqwest::Result<()>` (the error being the error's display string), or it
panics.  The panic is real and reachable: `Response::error_for_status`
returns `Err` only for a 4xx/5xx status, so for any other non-2xx status
(e.g. 300 or 304, which the default redirect policy never consumes) the
`unwrap_err()` at notify.rs:113 is called on an `Ok` and panics, despite the
source comment there claiming it is always safe. -/
inductive NotifyOutcome where
  | ret (r : Except String Unit)
  | panicked
deriving Repr, DecidableEq

/-- Embedding of `notify.rs::notify`: one GET with Basic auth against `url`,
together with the log lines the call itself writes.  A transport failure is
returned by the `?` on `send()`; a 2xx status logs the
`Notified {url}: Status {status}` line — each `{}` filled by one
`replacen(.., 1)`; the status is rendered by its numeric code, eliding the
canonical reason phrase of `StatusCode`'s display — and returns `Ok`; a
4xx/5xx status returns the `error_for_status` error; any other status panics
(`unwrap_err` on an `Ok`, see `NotifyOutcome`). -/
def notify (env : HttpEnv) (url id pw : String) :
    NotifyOutcome × List LogEntry :=
  match env url id pw with
  | HttpOutcome.transportError reason => (NotifyOutcome.ret (Except.error reason), [])
  | HttpOutcome.response status =>
      if statusIsSuccess status then
        (NotifyOutcome.ret (Except.ok ()),
         [LogEntry.info ("[" ++ id ++ "] "
            ++ replacen1 (replacen1 msgNotifyStatusFmt "{}" url) "{}" (toString status))])
      else
        if statusIsClientError status || statusIsServerError status then
          (NotifyOutcome.ret (Except.error (status_error_reason url status)), [])
        else
          (NotifyOutcome.panicked, [])

/-- Observed end of one protocol attempt: success, a failure carried as data
(transport error or 4xx/5xx status), or a panic unwinding out of the call. -/
inductive AttemptResult where
  | ok
  | failed (reason : String)
  | panicked
deriving Repr, DecidableEq

/-- Observation of one dispatched protocol call: the endpoint attempted and
how it ended.  The Rust code does not reify this value — it only logs — but
each attempt is exactly one `notify` invocation, recorded here so that the
dispatch behaviour can be stated. -/
structure Attempt where
  url : String
  result : AttemptResult
deriving Repr, DecidableEq

/-- Observable outcome of dispatching (part of) a profile: the attempts made
in order, the log lines written, and whether a panic unwound out of the
dispatch — in which case nothing after the panicking call was executed. -/
structure DispatchResult where
  attempts : List Attempt
  logs : List LogEntry
  panicked : Bool
deriving Repr, DecidableEq

/-- One protocol branch of `notify.rs::perform_notification` (the two
branches are textually identical up to the URL and the message key): call
`notify`; on `Err(e)`, log `[{master_id}] {fail_fmt with e}` (`str::replace`,
all occurrences) and fall through; a panic in `notify` unwinds. -/
def notify_protocol (env : HttpEnv) (url failFmt : String) (config : Config) :
    DispatchResult :=
  match notify env url config.master_id config.password with
  | (NotifyOutcome.ret (Except.ok _), logs) =>
      { attempts := [{ url := url, result := AttemptResult.ok }],
        logs := logs, panicked := false }
  | (NotifyOutcome.ret (Except.error e), logs) =>
      { attempts := [{ url := url, result := AttemptResult.failed e }],
        logs := logs ++ [LogEntry.error ("[" ++ config.master_id ++ "] "
          ++ failFmt.replace "{}" e)],
        panicked := false }
  | (NotifyOutcome.panicked, logs) =>
      { attempts := [{ url := url, result := AttemptResult.panicked }],
        logs := logs, panicked := true }

/-- Embedding of `notify.rs::perform_notification` (the spec's
`dispatch_profile`): attempt IPv4 when `ipv4_notify` is set, then IPv6 when
`ipv6_notify` is set; a disabled protocol produces no attempt and no log.
A panic in the IPv4 call unwinds out of the function, so the IPv6 branch is
then never reached. -/
def perform_notification (env : HttpEnv) (config : Config) : DispatchResult :=
  let v4 :=
    if config.ipv4_notify then notify_protocol env ipv4Url msgIPv4FailFmt config
    else { attempts := [], logs := [], panicked := false }
  if v4.panicked then v4
  else
    let v6 :=
      if config.ipv6_notify then notify_protocol env ipv6Url msgIPv6FailFmt config
      else { attempts := [], logs := [], panicked := false }
    { attempts := v4.attempts ++ v6.attempts,
      logs := v4.logs ++ v6.logs,
      panicked := v6.panicked }

/-- English messages of `notify.rs::notify_now_mode`. -/
def msgNotifyStart : String := "Starting immediate notification."

/-- See `msgNotifyStart`. -/
def msgConfigMissing : String :=
  "MasterID or Password is not set. Please run configuration mode first."

/-- See `msgNotifyStart`. -/
def msgNotifyFinish : String := "Immediate notification finished."

/-- Observable outcome of one `--notify` run: per processed profile its
attempts, the full log, and whether a panic aborted the run — profiles after
the panicking one are never processed, and the finish line is not logged. -/
structure NotifyNowRun where
  runs : List (Config × List Attempt)
  logs : List LogEntry
  panicked : Bool
deriving Repr, DecidableEq

/-- The `for config in configs` loop of `notify.rs::notify_now_mode`: each
profile is dispatched through a copy whose flags are the conjunction of the
command-line request and the stored flag; a panic in `perform_notification`
unwinds, aborting the remaining profiles. -/
def notify_now_runs (env : HttpEnv) (use_ipv4 use_ipv6 : Bool) :
    List Config → NotifyNowRun
  | [] => { runs := [], logs := [], panicked := false }
  | config :: rest =>
      let temp_config : Config :=
        { config with
          ipv4_notify := use_ipv4 && config.ipv4_notify
          ipv6_notify := use_ipv6 && config.ipv6_notify }
      let r := perform_notification env temp_config
      if r.panicked then
        { runs := [(config, r.attempts)], logs := r.logs, panicked := true }
      else
        let later := notify_now_runs env use_ipv4 use_ipv6 rest
        { runs := (config, r.attempts) :: later.runs,
          logs := r.logs ++ later.logs,
          panicked := later.panicked }

/-- Embedding of `notify.rs::notify_now_mode` (the one-shot
`--notify`/`--ipv4`/`--ipv6` mode): log the start line, load all
configurations (collapsing a load failure to none); if none, log the
missing-configuration error and return; otherwise run the per-profile loop,
and — unless it panicked — log the finish line. -/
def notify_now_mode (reg : Registry) (env : HttpEnv) (use_ipv4 use_ipv6 : Bool) :
    NotifyNowRun :=
  let configs := unwrapOr (load_all_configs reg) []
  if configs.isEmpty then
    { runs := [], logs := [LogEntry.info msgNotifyStart, LogEntry.error msgConfigMissing],
      panicked := false }
  else
    let r := notify_now_runs env use_ipv4 use_ipv6 configs
    if r.panicked then
      { runs := r.runs, logs := LogEntry.info msgNotifyStart :: r.logs, panicked := true }
    else
      { runs := r.runs,
        logs := LogEntry.info msgNotifyStart :: r.logs ++ [LogEntry.info msgNotifyFinish],
        panicked := false }

/-! ## Service control loop (`src/winservice.rs`) -/

/-- Wait timeout of the service loop, `Duration::from_secs(5 * 60)`. -/
def WAIT_TIMEOUT_SECS : Nat := 5 * 60

/-- What one `shutdown_rx.recv_timeout(..)` in the wait phase yields:

* `stopSignal` — `Ok(())`: the control handler forwarded a Stop (or
  Interrogate) signal into the channel;
* `disconnected` — `Err(RecvTimeoutError::Disconnected)`: the sender side of
  the channel is gone;
* `timeout` — `Err(RecvTimeoutError::Timeout)`: `WAIT_TIMEOUT_SECS` elapsed
  with no signal. -/
inductive WaitEvent where
  | stopSignal
  | disconnected
  | timeout
deriving Repr, DecidableEq

/-- One full dispatch pass, `for config in &configs { perform_notification }`:
attempts and log lines in profile order; a panic unwinds, aborting the rest
of the pass. -/
def dispatch_pass (env : HttpEnv) : List Config → DispatchResult
  | [] => { attempts := [], logs := [], panicked := false }
  | c :: rest =>
      let r := perform_notification env c
      if r.panicked then r
      else
        let later := dispatch_pass env rest
        { attempts := r.attempts ++ later.attempts,
          logs := r.logs ++ later.logs,
          panicked := later.panicked }

/-- How the wait loop ends, relative to the observed event list: `stopped` —
it broke out on a stop signal or a disconnected channel; `waiting` — the
event list is exhausted and the loop is still blocked in `recv_timeout`;
`panicked` — a dispatch pass panicked and the loop (with its thread)
unwound. -/
inductive LoopExit where
  | stopped
  | waiting
  | panicked
deriving Repr, DecidableEq

/-- Embedding of the wait loop of `winservice.rs::run_service_loop_impl`
(lines 143-156), driven by the list of channel events observed in order:
a stop signal or a disconnected channel breaks out of the loop; a timeout
performs one dispatch pass over the loaded configuration list and — unless
the pass panicked, which unwinds out of the loop — re-enters the wait. -/
def service_wait_loop (env : HttpEnv) (configs : List Config) :
    List WaitEvent → List DispatchResult × LoopExit
  | [] => ([], LoopExit.waiting)
  | WaitEvent.stopSignal :: _ => ([], LoopExit.stopped)
  | WaitEvent.disconnected :: _ => ([], LoopExit.stopped)
  | WaitEvent.timeout :: rest =>
      let pass := dispatch_pass env configs
      if pass.panicked then ([pass], LoopExit.panicked)
      else
        let later := service_wait_loop env configs rest
        (pass :: later.1, later.2)

/-- Service state reported to the host via `set_service_status`. -/
inductive SvcState where
  | running
  | stopped
deriving Repr, DecidableEq

/-- One status report to the service control manager: the state and the
Win32 exit code (`ServiceExitCode::Win32`). -/
structure HostReport where
  state : SvcState
  exitCode : Nat
deriving Repr, DecidableEq

/-- Observable trace of one run of `winservice.rs::run_service_loop_impl`:
the status reports made to the host in order, the dispatch passes performed
or started (the initial pass, then one per elapsed timeout), and whether the
run ended in a panic — in which case `Stopped` is never reported: the panic
unwinds past the `set_service_status` calls.  Log lines are tracked inside
each pass. -/
structure ServiceRun where
  reports : List HostReport
  passes : List DispatchResult
  panicked : Bool
deriving Repr, DecidableEq

/-- Embedding of `winservice.rs::run_service_loop_impl`: register the control
handler, report `Running` (exit code 0), load the configurations collapsing a
load failure to none (`unwrap_or_default`); with no configurations, report
`Stopped` with exit code 1 (configuration error) and return without any
dispatch; otherwise perform the initial dispatch pass (a panic there unwinds
at once), run the wait loop over the observed channel events, and — only when
the loop broke on a stop — report `Stopped` with exit code 0. -/
def run_service_loop_impl (reg : Registry) (env : HttpEnv)
    (events : List WaitEvent) : ServiceRun :=
  let configs := unwrapOr (load_all_configs reg) []
  if configs.isEmpty then
    { reports := [{ state := SvcState.running, exitCode := 0 },
                  { state := SvcState.stopped, exitCode := 1 }]
      passes := []
      panicked := false }
  else
    let first := dispatch_pass env configs
    if first.panicked then
      { reports := [{ state := SvcState.running, exitCode := 0 }]
        passes := [first]
        panicked := true }
    else
      let loopRes := service_wait_loop env configs events
      { reports := [{ state := SvcState.running, exitCode := 0 }]
          ++ (match loopRes.2 with
              | LoopExit.stopped => [{ state := SvcState.stopped, exitCode := 0 }]
              | _ => [])
        passes := first :: loopRes.1
        panicked := match loopRes.2 with
          | LoopExit.panicked => true
          | _ => false }

/-! ## Bounded log file (`src/logging.rs`) -/

/-- Maximum number of lines retained in `mydns.log`,
`logging.rs::MAX_LOG_LINES`. -/
def MAX_LOG_LINES : Nat := 10000

/-- The formatted log line `[{timestamp}] [{level}] {message}`. -/
def logLine (timestamp level message : String) : String :=
  "[" ++ timestamp ++ "] [" ++ level ++ "] " ++ message

/-- Embedding of `logging.rs::log_to_file` at the level of the file's line
list: read all existing lines, append the new formatted line, drop the oldest
lines if the bound is exceeded (`lines.drain(0..(lines.len() - MAX_LOG_LINES))`),
and write the result back.  The returned list is the file content after a
successful call. -/
def log_to_file (existing : List String) (level message timestamp : String) :
    List String :=
  let lines := existing ++ [logLine timestamp level message]
  if lines.length > MAX_LOG_LINES then
    lines.drop (lines.length - MAX_LOG_LINES)
  else
    lines

/-- Embedding of `logging.rs::log_info` (the file-update it performs when the
write succeeds). -/
def log_info (existing : List String) (message timestamp : String) :
    List String :=
  log_to_file existing "INFO" message timestamp

/-- Embedding of `logging.rs::log_error`. -/
def log_error (existing : List String) (message timestamp : String) :
    List String :=
  log_to_file existing "ERROR" message timestamp

/-! ## Registry lemmas -/

lemma lookupValue_setValue_self (vs : List (String × RegData)) (n : String) (d : RegData) :
    lookupValue (setValue vs n d) n = some d := by
  induction vs with
  | nil => simp [setValue, lookupValue]
  | cons p rest ih =>
    obtain ⟨m, e⟩ := p
    by_cases h : m = n
    · subst h
      simp [setValue, lookupValue]
    · simp [setValue, lookupValue, h, ih]

lemma lookupValue_setValue_ne (vs : List (String × RegData)) (n m : String) (d : RegData)
    (h : m ≠ n) :
    lookupValue (setValue vs n d) m = lookupValue vs m := by
  induction vs with
  | nil => simp [setValue, lookupValue, Ne.symm h]
  | cons p rest ih =>
    obtain ⟨k, e⟩ := p
    by_cases hk : k = n
    · subst hk
      simp [setValue, lookupValue, Ne.symm h]
    · by_cases hm : k = m
      · subst hm
        simp [setValue, lookupValue, hk]
      · simp [setValue, lookupValue, hk, hm, ih]

lemma decode_sz_validSecret (pw : String) (h : validSecret pw) : decode_sz pw = pw := by
  unfold decode_sz
  have hall : ∀ c ∈ pw.data, (fun c => decide (c ≠ NUL)) c = true := by
    intro c hc
    exact decide_eq_true (h c hc)
  rw [List.takeWhile_eq_self_iff.mpr hall]

lemma get_reg_string_save_values (vs : List (String × RegData)) (pw : String) (v4 v6 : Bool) :
    get_reg_string (save_values vs pw v4 v6) "Password" = decode_sz pw := by
  unfold get_reg_string save_values
  rw [lookupValue_setValue_ne _ _ _ _ (by decide),
    lookupValue_setValue_ne _ _ _ _ (by decide),
    lookupValue_setValue_self]

lemma get_reg_dword_save_values_v4 (vs : List (String × RegData)) (pw : String) (v4 v6 : Bool) :
    get_reg_dword (save_values vs pw v4 v6) "IPv4Notify" = if v4 then 1 else 0 := by
  unfold get_reg_dword save_values
  rw [lookupValue_setValue_ne _ _ _ _ (by decide), lookupValue_setValue_self]

lemma get_reg_dword_save_values_v6 (vs : List (String × RegData)) (pw : String) (v4 v6 : Bool) :
    get_reg_dword (save_values vs pw v4 v6) "IPv6Notify" = if v6 then 1 else 0 := by
  unfold get_reg_dword save_values
  rw [lookupValue_setValue_self]

lemma read_config_save_values (id : String) (vs : List (String × RegData)) (pw : String)
    (v4 v6 : Bool) (hpw : validSecret pw) :
    read_config id (save_values vs pw v4 v6) =
      { master_id := id, password := pw, ipv4_notify := v4, ipv6_notify := v6 } := by
  unfold read_config
  rw [get_reg_string_save_values, get_reg_dword_save_values_v4, get_reg_dword_save_values_v6,
    decode_sz_validSecret pw hpw]
  cases v4 <;> cases v6 <;> rfl

lemma find_loaded_of_mem (slots : List ChildSlot) (id : String) (vs : List (String × RegData))
    (hnd : (slots.filterMap slotName).Nodup) (hmem : ChildSlot.child id vs ∈ slots) :
    (slots.filterMap slotConfig).find? (fun c => decide (c.master_id = id))
      = some (read_config id vs) := by
  induction slots with
  | nil => cases hmem
  | cons s rest ih =>
    cases s with
    | child n w =>
      rw [List.filterMap_cons] at hnd ⊢
      simp only [slotName, slotConfig] at hnd ⊢
      rw [List.nodup_cons] at hnd
      rcases List.mem_cons.mp hmem with heq | hmem'
      · cases heq
        rw [List.find?_cons_of_pos]
        simp [read_config]
      · have hn : n ≠ id := by
          intro hcontra
          exact hnd.1 (hcontra ▸ List.mem_filterMap.mpr ⟨ChildSlot.child id vs, hmem', rfl⟩)
        rw [List.find?_cons_of_neg]
        · exact ih hnd.2 hmem'
        · simp [read_config, hn]
    | unopenable n =>
      rw [List.filterMap_cons] at hnd ⊢
      simp only [slotName, slotConfig] at hnd ⊢
      rw [List.nodup_cons] at hnd
      rcases List.mem_cons.mp hmem with heq | hmem'
      · cases heq
      · exact ih hnd.2 hmem'
    | enumGlitch =>
      rw [List.filterMap_cons] at hnd ⊢
      simp only [slotName, slotConfig] at hnd ⊢
      rcases List.mem_cons.mp hmem with heq | hmem'
      · cases heq
      · exact ih hnd hmem'

lemma find_loaded_none (slots : List ChildSlot) (id : String)
    (h : ∀ s ∈ slots, slotNamed s id = false) :
    (slots.filterMap slotConfig).find? (fun c => decide (c.master_id = id)) = none := by
  induction slots with
  | nil => rfl
  | cons s rest ih =>
    have hrest := fun x hx => h x (List.mem_cons_of_mem s hx)
    cases s with
    | child n w =>
      have hn : n ≠ id := by
        have := h (ChildSlot.child n w) (List.mem_cons_self _ _)
        simpa [slotNamed, slotName] using this
      rw [List.filterMap_cons]
      simp only [slotConfig]
      rw [List.find?_cons_of_neg]
      · exact ih hrest
      · simp [read_config, hn]
    | unopenable n =>
      rw [List.filterMap_cons]
      simp only [slotConfig]
      exact ih hrest
    | enumGlitch =>
      rw [List.filterMap_cons]
      simp only [slotConfig]
      exact ih hrest

lemma filterMap_slotName_map (f : ChildSlot → ChildSlot)
    (h : ∀ s, slotName (f s) = slotName s) (slots : List ChildSlot) :
    (slots.map f).filterMap slotName = slots.filterMap slotName := by
  induction slots with
  | nil => rfl
  | cons s rest ih => simp only [List.map_cons, List.filterMap_cons, h s, ih]

lemma get_config_present (slots : List ChildSlot) (id : String) :
    get_config (Registry.present slots) id
      = (slots.filterMap slotConfig).find? (fun c => decide (c.master_id = id)) := rfl

/-! ## Claim theorems: profile store -/

/-- C3: for every valid `(id, secret, v4, v6)`, `save_to_registry` (the
store's upsert) followed by `get(id)` (loading all configurations and
selecting the one with that id) returns exactly the stored secret and notify
flags: each boolean is persisted as the DWORD 1/0 and read back as equality
with 1, and the secret round-trips through its `REG_SZ` representation. -/
theorem C3_upsert_get_roundtrip (reg reg' : Registry) (id pw : String) (v4 v6 : Bool)
    (hwf : reg.wf) (hid : validKeyName id) (hpw : validSecret pw)
    (hsave : save_to_registry reg id pw v4 v6 = Except.ok reg') :
    get_config reg' id =
      some { master_id := id, password := pw, ipv4_notify := v4, ipv6_notify := v6 } := by
  cases reg with
  | absent =>
    unfold save_to_registry at hsave
    injection hsave with h
    subst h
    rw [get_config_present,
      find_loaded_of_mem _ id (save_values [] pw v4 v6) (by simp [slotName])
        (List.mem_singleton.mpr rfl),
      read_config_save_values id [] pw v4 v6 hpw]
  | openError => exact absurd hsave (by simp [save_to_registry])
  | present slots =>
    simp only [save_to_registry] at hsave
    split_ifs at hsave with hA hB
    · -- overwrite in place
      injection hsave with h
      subst h
      obtain ⟨s₀, hs₀mem, hs₀⟩ := List.any_eq_true.mp hB
      obtain ⟨vs₀, rfl⟩ : ∃ vs₀, s₀ = ChildSlot.child id vs₀ := by
        cases s₀ with
        | child n vs =>
          refine ⟨vs, ?_⟩
          have hn : n = id := by simpa using hs₀
          rw [hn]
        | unopenable n => simp at hs₀
        | enumGlitch => simp at hs₀
      have hpres : ∀ s, slotName ((fun s => match s with
          | ChildSlot.child n vs =>
              if n = id then ChildSlot.child n (save_values vs pw v4 v6)
              else ChildSlot.child n vs
          | s => s) s) = slotName s := by
        intro s
        cases s with
        | child n vs =>
          by_cases hn : n = id <;> simp [slotName, hn]
        | unopenable n => rfl
        | enumGlitch => rfl
      rw [get_config_present,
        find_loaded_of_mem _ id (save_values vs₀ pw v4 v6)
          (by rw [filterMap_slotName_map _ hpres]; exact hwf)
          (by
            have := List.mem_map_of_mem (f := (fun s => match s with
              | ChildSlot.child n vs =>
                  if n = id then ChildSlot.child n (save_values vs pw v4 v6)
                  else ChildSlot.child n vs
              | s => s)) hs₀mem
            simpa using this),
        read_config_save_values id vs₀ pw v4 v6 hpw]
    · -- append a fresh child
      injection hsave with h
      subst h
      have hnotin : id ∉ slots.filterMap slotName := by
        intro hmem
        obtain ⟨s, hsmem, hname⟩ := List.mem_filterMap.mp hmem
        cases s with
        | child n vs =>
          refine hB ?_
          refine List.any_eq_true.mpr ⟨ChildSlot.child n vs, hsmem, ?_⟩
          simp only [slotName, Option.some.injEq] at hname
          simp [hname]
        | unopenable n =>
          refine hA ?_
          refine List.any_eq_true.mpr ⟨ChildSlot.unopenable n, hsmem, ?_⟩
          simp only [slotName, Option.some.injEq] at hname
          simp [hname]
        | enumGlitch => simp [slotName] at hname
      rw [get_config_present,
        find_loaded_of_mem _ id (save_values [] pw v4 v6)
          (by
            rw [List.filterMap_append]
            simp only [List.filterMap_cons, slotName, List.filterMap_nil]
            exact List.nodup_append.mpr
              ⟨hwf, List.nodup_singleton id, by simpa [List.disjoint_singleton] using hnotin⟩)
          (List.mem_append_right _ (List.mem_singleton.mpr rfl)),
        read_config_save_values id [] pw v4 v6 hpw]

/-- Witness for `C3_upsert_get_roundtrip` at a concrete store and profile. -/
theorem C3_upsert_get_roundtrip_witness :
    Registry.wf Registry.absent
    ∧ validKeyName "mydns123"
    ∧ validSecret "hunter2"
    ∧ get_config (Registry.present
          [ChildSlot.child "mydns123" (save_values [] "hunter2" true false)]) "mydns123" =
        some { master_id := "mydns123", password := "hunter2",
               ipv4_notify := true, ipv6_notify := false } :=
  ⟨trivial, by unfold validKeyName; refine ⟨by decide, by decide, by decide⟩,
    by unfold validSecret; decide,
    C3_upsert_get_roundtrip Registry.absent _ "mydns123" "hunter2" true false trivial
      (by unfold validKeyName; refine ⟨by decide, by decide, by decide⟩)
      (by unfold validSecret; decide) rfl⟩

/-- C7: loading all configurations from an uninitialized store (the root key
`Software\MyDNSAdapter` does not exist) — and likewise from an existing but
empty root key — yields the empty list, never an error. -/
theorem C7_empty_store_lists_nothing :
    load_all_configs Registry.absent = Except.ok []
    ∧ load_all_configs (Registry.present []) = Except.ok [] :=
  ⟨rfl, rfl⟩

/-- C6: enumeration tolerates damaged records.  First conjunct: a slot at
which enumeration fails, or whose key cannot be opened, is skipped, and the
load result is exactly that of the store without the damaged slot — every
other well-formed profile is still returned.  Remaining conjuncts: a
`Password` value that is absent or not a `REG_SZ` reads as the empty string,
and a notify-flag value that is absent or not a `REG_DWORD` reads as `false`,
rather than producing an error. -/
theorem C6_damaged_entries_tolerated :
    (∀ (pre post : List ChildSlot) (bad : ChildSlot),
        (bad = ChildSlot.enumGlitch ∨ ∃ n, bad = ChildSlot.unopenable n) →
        load_all_configs (Registry.present (pre ++ bad :: post))
          = load_all_configs (Registry.present (pre ++ post)))
    ∧ (∀ name values,
        (∀ s, lookupValue values "Password" ≠ some (RegData.sz s)) →
        (read_config name values).password = "")
    ∧ (∀ name values,
        (∀ n, lookupValue values "IPv4Notify" ≠ some (RegData.dword n)) →
        (read_config name values).ipv4_notify = false)
    ∧ (∀ name values,
        (∀ n, lookupValue values "IPv6Notify" ≠ some (RegData.dword n)) →
        (read_config name values).ipv6_notify = false) := by
  refine ⟨?_, ?_, ?_, ?_⟩
  · intro pre post bad hbad
    rcases hbad with rfl | ⟨n, rfl⟩ <;>
      simp [load_all_configs, List.filterMap_append, List.filterMap_cons, slotConfig]
  · intro name values h
    show get_reg_string values "Password" = ""
    unfold get_reg_string
    cases hv : lookupValue values "Password" with
    | none => rfl
    | some d =>
      cases d with
      | sz s => exact absurd hv (h s)
      | dword n => rfl
      | other => rfl
  · intro name values h
    show decide (get_reg_dword values "IPv4Notify" = 1) = false
    unfold get_reg_dword
    cases hv : lookupValue values "IPv4Notify" with
    | none => rfl
    | some d =>
      cases d with
      | sz s => rfl
      | dword n => exact absurd hv (h n)
      | other => rfl
  · intro name values h
    show decide (get_reg_dword values "IPv6Notify" = 1) = false
    unfold get_reg_dword
    cases hv : lookupValue values "IPv6Notify" with
    | none => rfl
    | some d =>
      cases d with
      | sz s => rfl
      | dword n => exact absurd hv (h n)
      | other => rfl

/-- Witness for `C6_damaged_entries_tolerated` at concrete stores: one
enumeration glitch next to a healthy profile, a `Password` stored as a DWORD,
a missing `IPv4Notify`, and an `IPv6Notify` stored as a string. -/
theorem C6_damaged_entries_tolerated_witness :
    load_all_configs (Registry.present [ChildSlot.child "mydns1" [], ChildSlot.enumGlitch])
      = load_all_configs (Registry.present [ChildSlot.child "mydns1" []])
    ∧ (read_config "mydns2" [("Password", RegData.dword 7)]).password = ""
    ∧ (read_config "mydns2" [("Password", RegData.dword 7)]).ipv4_notify = false
    ∧ (read_config "mydns2" [("IPv6Notify", RegData.sz "yes")]).ipv6_notify = false :=
  ⟨C6_damaged_entries_tolerated.1 [ChildSlot.child "mydns1" []] [] ChildSlot.enumGlitch
      (Or.inl rfl),
   C6_damaged_entries_tolerated.2.1 "mydns2" [("Password", RegData.dword 7)]
      (fun s h => by simp [lookupValue] at h),
   C6_damaged_entries_tolerated.2.2.1 "mydns2" [("Password", RegData.dword 7)]
      (fun n h => by simp [lookupValue] at h),
   C6_damaged_entries_tolerated.2.2.2 "mydns2" [("IPv6Notify", RegData.sz "yes")]
      (fun n h => by simp [lookupValue] at h)⟩

/-- C8: a successful `delete_config id` leaves a store on which `get(id)` is
`NotFound` (first conjunct); `delete_config` on an id with no stored record
yields `NotFound` — in the registry embedding the error branch carries no new
store value, so the failed delete cannot change any stored profile (second
and third conjuncts, for an initialized and an uninitialized store). -/
theorem C8_delete_then_get_notFound :
    (∀ reg reg' id, delete_config reg id = Except.ok reg' → get_config reg' id = none)
    ∧ (∀ slots id, (∀ s ∈ slots, slotNamed s id = false) →
        delete_config (Registry.present slots) id = Except.error RegError.notFound)
    ∧ (∀ id, delete_config Registry.absent id = Except.error RegError.notFound) := by
  refine ⟨?_, ?_, ?_⟩
  · intro reg reg' id h
    cases reg with
    | absent => simp [delete_config] at h
    | openError => simp [delete_config] at h
    | present slots =>
      simp only [delete_config] at h
      split_ifs at h with h1
      injection h with h'
      subst h'
      rw [get_config_present]
      apply find_loaded_none
      intro s hs
      simpa using (List.mem_filter.mp hs).2
  · intro slots id h
    have h1 : (slots.any fun s => match s with
        | ChildSlot.child n _ => decide (n = id)
        | _ => false) = false := by
      rw [List.any_eq_false]
      intro s hs
      have := h s hs
      cases s with
      | child n w => simpa [slotNamed, slotName] using this
      | unopenable n => simp
      | enumGlitch => simp
    have h2 : (slots.any fun s => match s with
        | ChildSlot.unopenable n => decide (n = id)
        | _ => false) = false := by
      rw [List.any_eq_false]
      intro s hs
      have := h s hs
      cases s with
      | child n w => simp
      | unopenable n => simpa [slotNamed, slotName] using this
      | enumGlitch => simp
    simp [delete_config, h1, h2]
  · intro id
    rfl

/-- Witness for `C8_delete_then_get_notFound`: delete an existing profile and
look it up again; delete a nonexistent id. -/
theorem C8_delete_then_get_notFound_witness :
    get_config (Registry.present []) "mydns1" = none
    ∧ delete_config (Registry.present [ChildSlot.child "mydns9" []]) "mydns1"
        = Except.error RegError.notFound
    ∧ delete_config Registry.absent "mydns1" = Except.error RegError.notFound :=
  ⟨C8_delete_then_get_notFound.1
      (Registry.present [ChildSlot.child "mydns1" [("Password", RegData.sz "x")]])
      (Registry.present []) "mydns1" (by decide),
   C8_delete_then_get_notFound.2.1 [ChildSlot.child "mydns9" []] "mydns1" (by decide),
   C8_delete_then_get_notFound.2.2 "mydns1"⟩

/-! ## Claim theorems: notification dispatcher -/

/-- C1 (code-bug evidence at the failing input): a dispatch whose IPv4 GET
draws an HTTP 304 response does not return normally with a logged failure.
`Response::error_for_status` yields `Ok` for a status outside 4xx/5xx, so the
`unwrap_err()` at notify.rs:113 panics — contrary to the claim, to the spec,
and to the source comment asserting the `unwrap_err` is always safe: the
dispatch unwinds, and no failure line is logged. -/
theorem C1_panics_on_status_304 :
    notify (fun _ _ _ => HttpOutcome.response 304) ipv4Url "mydns1" "pw"
      = (NotifyOutcome.panicked, [])
    ∧ perform_notification (fun _ _ _ => HttpOutcome.response 304)
        { master_id := "mydns1", password := "pw",
          ipv4_notify := true, ipv6_notify := false }
      = { attempts := [{ url := ipv4Url, result := AttemptResult.panicked }],
          logs := [], panicked := true } := by
  exact ⟨by decide, by decide⟩

/-- C5 (code-bug evidence at the failing input): with both flags enabled, an
HTTP 304 on the IPv4 attempt panics the dispatch before the IPv6 branch, so
the IPv6 endpoint is never attempted (first conjunct: the only attempt is the
panicked IPv4 one) even though the IPv6 call would have succeeded with 200
(second conjunct) — the failure of one protocol does prevent the other,
contrary to the claim. -/
theorem C5_ipv4_panic_skips_ipv6 :
    perform_notification
        (fun url _ _ => if url = ipv4Url then HttpOutcome.response 304
          else HttpOutcome.response 200)
        { master_id := "mydns1", password := "pw",
          ipv4_notify := true, ipv6_notify := true }
      = { attempts := [{ url := ipv4Url, result := AttemptResult.panicked }],
          logs := [], panicked := true }
    ∧ notify
        (fun url _ _ => if url = ipv4Url then HttpOutcome.response 304
          else HttpOutcome.response 200)
        ipv6Url "mydns1" "pw"
      = (NotifyOutcome.ret (Except.ok ()),
         [LogEntry.info
           "[mydns1] Notified https://ipv6.mydns.jp/login.html: Status 200"]) := by
  exact ⟨by decide, by decide⟩

/-- C9 (code-bug evidence at the failing input): two stored profiles both
have `IPv4Notify = 1` and both command-line flags are set, but an HTTP 304 on
the first profile's IPv4 attempt panics `notify_now_mode`: the second
profile, whose effective conjunction is also true, is never attempted, and
the finish line is never logged — contrary to the claimed iff for every
loaded profile. -/
theorem C9_panic_aborts_remaining_profiles :
    notify_now_mode
        (Registry.present
          [ChildSlot.child "mydns1" [("IPv4Notify", RegData.dword 1)],
           ChildSlot.child "mydns2" [("IPv4Notify", RegData.dword 1)]])
        (fun _ _ _ => HttpOutcome.response 304) true true
      = { runs := [({ master_id := "mydns1", password := "",
                      ipv4_notify := true, ipv6_notify := false },
                    [{ url := ipv4Url, result := AttemptResult.panicked }])],
          logs := [LogEntry.info msgNotifyStart],
          panicked := true } := by
  decide

/-! ## Claim theorems: service control loop -/

/-- C2 (code-bug evidence at the failing input): when the five-minute timeout
elapses and the dispatch pass it triggers draws an HTTP 304, the pass panics:
the wait phase is never re-entered — the stop signal following the timeout in
the event list is never received (first conjunct) — and at the run level the
panic unwinds past the `set_service_status` calls, so the host sees
`Running` but never a `Stopped` report (second conjunct), contrary to the
claim's timeout-then-rewait behaviour. -/
theorem C2_panic_never_reenters_wait :
    service_wait_loop (fun _ _ _ => HttpOutcome.response 304)
        [{ master_id := "mydns1", password := "",
           ipv4_notify := true, ipv6_notify := false }]
        [WaitEvent.timeout, WaitEvent.stopSignal]
      = ([{ attempts := [{ url := ipv4Url, result := AttemptResult.panicked }],
            logs := [], panicked := true }], LoopExit.panicked)
    ∧ run_service_loop_impl
        (Registry.present [ChildSlot.child "mydns1" [("IPv4Notify", RegData.dword 1)]])
        (fun _ _ _ => HttpOutcome.response 304) [WaitEvent.timeout]
      = { reports := [{ state := SvcState.running, exitCode := 0 }],
          passes := [{ attempts := [{ url := ipv4Url, result := AttemptResult.panicked }],
                       logs := [], panicked := true }],
          panicked := true } := by
  exact ⟨by decide, by decide⟩

/-- C4: starting the service with an empty loaded profile list — including a
store collapsed to zero profiles because it was unreadable — reports
`Running` and then immediately `Stopped` with the non-success exit code 1
(configuration error), performing zero dispatch passes and never entering
the wait loop (the trace is independent of the wait events). -/
theorem C4_zero_profiles_stops (reg : Registry) (env : HttpEnv) (events : List WaitEvent)
    (h : unwrapOr (load_all_configs reg) [] = []) :
    run_service_loop_impl reg env events =
      { reports := [{ state := SvcState.running, exitCode := 0 },
                    { state := SvcState.stopped, exitCode := 1 }],
        passes := [], panicked := false } := by
  simp [run_service_loop_impl, h]

/-- Witness for `C4_zero_profiles_stops`: an unreadable store (root key open
error), collapsed to zero profiles. -/
theorem C4_zero_profiles_stops_witness :
    unwrapOr (load_all_configs Registry.openError) [] = ([] : List Config)
    ∧ run_service_loop_impl Registry.openError (fun _ _ _ => HttpOutcome.response 200)
        [WaitEvent.timeout] =
      { reports := [{ state := SvcState.running, exitCode := 0 },
                    { state := SvcState.stopped, exitCode := 1 }],
        passes := [], panicked := false } :=
  ⟨rfl, C4_zero_profiles_stops Registry.openError (fun _ _ _ => HttpOutcome.response 200)
    [WaitEvent.timeout] rfl⟩

/-! ## Claim theorems: bounded log file -/

lemma log_to_file_spec (existing : List String) (level message ts : String) :
    (log_to_file existing level message ts).length = min (existing.length + 1) MAX_LOG_LINES
    ∧ log_to_file existing level message ts <:+ existing ++ [logLine ts level message] := by
  unfold log_to_file
  by_cases h : (existing ++ [logLine ts level message]).length > MAX_LOG_LINES
  · rw [if_pos h]
    refine ⟨?_, List.drop_suffix _ _⟩
    rw [List.length_drop]
    simp only [List.length_append, List.length_singleton] at h ⊢
    omega
  · rw [if_neg h]
    refine ⟨?_, List.suffix_refl _⟩
    simp only [List.length_append, List.length_singleton] at h ⊢
    omega

/-- C10: after every successful `log_info` or `log_error`, the log file holds
at most `MAX_LOG_LINES = 10000` lines, and what it holds is a suffix of the
old content followed by the new entry, of length `min (n+1) 10000` — i.e.
exactly the most recent lines, the oldest being dropped first when appending
would exceed the bound. -/
theorem C10_log_rotation_bound (existing : List String) (message ts : String) :
    ((log_info existing message ts).length = min (existing.length + 1) MAX_LOG_LINES
      ∧ log_info existing message ts <:+ existing ++ [logLine ts "INFO" message])
    ∧ ((log_error existing message ts).length = min (existing.length + 1) MAX_LOG_LINES
      ∧ log_error existing message ts <:+ existing ++ [logLine ts "ERROR" message]) :=
  ⟨log_to_file_spec existing "INFO" message ts,
   log_to_file_spec existing "ERROR" message ts⟩

end MyDNS
